import Mathlib

/-!
Verification of the RTSP camera driver pipeline (`src/main.rs`).

The Rust program is shallowly embedded: each pure fragment of the source
becomes a Lean function, the per-source ffmpeg reader loop becomes a fold
over an explicit event list, and the external channel / merge primitives
(tokio `watch`, futures `SelectAll`) that live outside the repository are
modelled from the specification's contracts.
-/

namespace RtspDriver

/-! ## String helpers (Rust `str::contains`, `Vec::join`, `to_ascii_uppercase`) -/

/-- Whether `p` is a leading segment of `s` (Rust slice-pattern matching used
by `str::contains`). -/
def leadsList : List Char → List Char → Bool
  | [], _ => true
  | _ :: _, [] => false
  | a :: as, b :: bs => a = b && leadsList as bs

/-- Whether `p` occurs contiguously somewhere in `s`. -/
def occursList (p : List Char) : List Char → Bool
  | [] => leadsList p []
  | c :: rest => leadsList p (c :: rest) || occursList p rest

/-- Rust `s.contains(pat)`: substring occurrence. -/
def strContains (s pat : String) : Bool :=
  occursList pat.data s.data

/-- Rust `Vec::<String>::join(", ")`. -/
def joinComma : List String → String
  | [] => ""
  | [s] => s
  | s :: rest => s ++ ", " ++ joinComma rest

/-- Rust `s.to_ascii_uppercase()`: uppercases ASCII letters only.
`Char.toUpper` likewise maps only lowercase ASCII letters. -/
def toAsciiUppercase (s : String) : String :=
  ⟨s.data.map Char.toUpper⟩

/-! ## Image formats (`enum ImageFormat`, `ImageFormat::from_str`) -/

inductive ImageFormat where
  | Rgb888 : ImageFormat
  | Yuv420 : ImageFormat
deriving DecidableEq, Repr

/-- `ImageFormat::from_str`: matches the ASCII-uppercased string; `"YUV420"`
maps to `Yuv420`, everything else falls through to `Rgb888`. -/
def ImageFormat.from_str (s : String) : ImageFormat :=
  if toAsciiUppercase s = "YUV420" then ImageFormat.Yuv420 else ImageFormat.Rgb888

/-- `main`: `make87::get_config_value("IMAGE_FORMAT").map(ImageFormat::from_str).unwrap_or(Rgb888)`. -/
def resolveImageFormat (configValue : Option String) : ImageFormat :=
  (configValue.map ImageFormat.from_str).getD ImageFormat.Rgb888

/-! ## `format_entity_path`

`url::Url::parse` is an external crate; its result is represented by the
components the source reads (`host_str`, `path`) together with the userinfo
components it ignores (`username`, `password`). A failed parse is `none`. -/

structure UrlParts where
  scheme : String
  username : String
  password : Option String
  host : Option String
  path : String
deriving DecidableEq, Repr

/-- Rust `path.trim_start_matches('/')`: strips every leading `'/'`. -/
def trimStartSlashes : List Char → List Char
  | [] => []
  | c :: rest => if c = '/' then trimStartSlashes rest else c :: rest

/-- `format_entity_path`: on a successful parse builds
`"/camera/" ++ host ++ "/" ++ path-without-leading-slashes` with `"unknown"`
for a missing host; on a failed parse returns `"/camera/unknown"`. -/
def format_entity_path (parsed : Option UrlParts) : String :=
  match parsed with
  | some u =>
      let ip := u.host.getD "unknown"
      let path : String := ⟨trimStartSlashes u.path.data⟩
      "/camera/" ++ ip ++ "/" ++ path
  | none => "/camera/unknown"

/-! ## Frame model (`make87_messages` image types, as used by the source) -/

structure Header where
  timestamp : Nat
  reference_id : Nat
  entity_path : String
deriving DecidableEq, Repr

structure ImageRgb888 where
  header : Option Header
  width : Nat
  height : Nat
  data : List Nat
deriving DecidableEq, Repr

structure ImageYuv420 where
  header : Option Header
  width : Nat
  height : Nat
  data : List Nat
deriving DecidableEq, Repr

inductive ImageRawAnyImage where
  | Rgb888 : ImageRgb888 → ImageRawAnyImage
  | Yuv420 : ImageYuv420 → ImageRawAnyImage
deriving DecidableEq, Repr

structure ImageRawAny where
  header : Option Header
  image : Option ImageRawAnyImage
deriving DecidableEq, Repr

/-- The raw pixel bytes carried by an `ImageRawAny`, if any. -/
def ImageRawAny.rawData (i : ImageRawAny) : Option (List Nat) :=
  match i.image with
  | some (ImageRawAnyImage.Rgb888 r) => some r.data
  | some (ImageRawAnyImage.Yuv420 y) => some y.data
  | none => none

/-- The width carried by an `ImageRawAny`, if any. -/
def ImageRawAny.rawWidth (i : ImageRawAny) : Option Nat :=
  match i.image with
  | some (ImageRawAnyImage.Rgb888 r) => some r.width
  | some (ImageRawAnyImage.Yuv420 y) => some y.width
  | none => none

/-- The height carried by an `ImageRawAny`, if any. -/
def ImageRawAny.rawHeight (i : ImageRawAny) : Option Nat :=
  match i.image with
  | some (ImageRawAnyImage.Rgb888 r) => some r.height
  | some (ImageRawAnyImage.Yuv420 y) => some y.height
  | none => none

/-- The byte length the specification's `MalformedFrame` invariant demands:
width × height × bytes-per-pixel for the stated format (RGB888 packs 3 bytes
per pixel; planar YUV420 averages 3/2 bytes per pixel). This definition
follows the spec's words, for comparison against the source's constructor. -/
def specExpectedByteLen (fmt : ImageFormat) (width height : Nat) : Nat :=
  match fmt with
  | ImageFormat.Rgb888 => width * height * 3
  | ImageFormat.Yuv420 => width * height * 3 / 2

/-! ## ffmpeg events (`ffmpeg_sidecar::event::FfmpegEvent`) -/

inductive LogLevel where
  | Info | Warning | Error | Fatal | Unknown
deriving DecidableEq, Repr

structure OutputVideoFrame where
  width : Nat
  height : Nat
  pix_fmt : String
  output_index : Nat
  data : List Nat
deriving DecidableEq, Repr

/-- The decoder's event stream; metadata payloads are carried as their
debug-formatted strings. -/
inductive FfmpegEvent where
  | ParsedVersion (v : String)
  | ParsedConfiguration (c : String)
  | ParsedStreamMapping (mapping : String)
  | ParsedInput (input : String)
  | ParsedOutput (output : String)
  | ParsedInputStream (stream : String)
  | ParsedOutputStream (stream : String)
  | ParsedDuration (duration : String)
  | Log (level : LogLevel) (msg : String)
  | LogEOF
  | Error (err : String)
  | Progress (progress : String)
  | OutputFrame (frame : OutputVideoFrame)
  | OutputChunk (len : Nat)
  | Done
deriving DecidableEq, Repr

/-- Severities of the `log` crate macros used by the source
(`trace!`, `debug!`, `info!`, `warn!`, `error!`). -/
inductive LogSeverity where
  | trace | debug | info | warn | error
deriving DecidableEq, Repr

/-- The log line the source always downgrades. -/
def dtsPattern : String := "non monotonically increasing dts"

/-- Rust `{:?}` on `ffmpeg_sidecar::event::LogLevel`. -/
def LogLevel.debugFormat : LogLevel → String
  | LogLevel.Info => "Info"
  | LogLevel.Warning => "Warning"
  | LogLevel.Error => "Error"
  | LogLevel.Fatal => "Fatal"
  | LogLevel.Unknown => "Unknown"

/-- The severity the `FfmpegEvent::Log` arm of the source routes a level to
when the message does not contain `dtsPattern`: `Error` and `Fatal` via
`error!`, `Warning` and `Unknown` via `warn!`, `Info` via `info!`. -/
def routeLogLevel (level : LogLevel) : LogSeverity :=
  match level with
  | LogLevel.Error => LogSeverity.error
  | LogLevel.Warning => LogSeverity.warn
  | LogLevel.Info => LogSeverity.info
  | LogLevel.Fatal => LogSeverity.error
  | LogLevel.Unknown => LogSeverity.warn

/-- Severity chosen by the `FfmpegEvent::Log(level, msg)` arm: a message
containing `dtsPattern` is logged with `warn!` unconditionally; otherwise the
arm matches on `level` as in `routeLogLevel`. -/
def classifyFfmpegLog (level : LogLevel) (msg : String) : LogSeverity :=
  if strContains msg dtsPattern then LogSeverity.warn
  else
    match level with
    | LogLevel.Error => LogSeverity.error
    | LogLevel.Warning => LogSeverity.warn
    | LogLevel.Info => LogSeverity.info
    | LogLevel.Fatal => LogSeverity.error
    | LogLevel.Unknown => LogSeverity.warn

/-! ## The per-source reader (`spawn_ffmpeg_reader`) -/

/-- `"[camera {camera_idx}] "`. -/
def cameraTag (camera_idx : Nat) : String :=
  "[camera " ++ toString camera_idx ++ "] "

/-- `ImageRawAny` built by the `FfmpegEvent::OutputFrame` arm for an accepted
frame: a header stamped with the current time and the entity path, and the
event's width, height and raw bytes copied verbatim into the variant chosen by
the target format. No validation of `frame.data` is performed. -/
def buildImageRawAny (image_format : ImageFormat) (entity_path : String)
    (now : Nat) (frame : OutputVideoFrame) : ImageRawAny :=
  let header : Option Header := some ⟨now, 0, entity_path⟩
  match image_format with
  | ImageFormat.Rgb888 =>
      ⟨header, some (ImageRawAnyImage.Rgb888
        ⟨header, frame.width, frame.height, frame.data⟩)⟩
  | ImageFormat.Yuv420 =>
      ⟨header, some (ImageRawAnyImage.Yuv420
        ⟨header, frame.width, frame.height, frame.data⟩)⟩

/-- The `FfmpegEvent::OutputFrame` arm up to the send: an event whose
`output_index` differs from the configured `stream_index` is dropped
(`continue`), otherwise the frame is built unconditionally. -/
def handleOutputFrame (stream_index : Nat) (image_format : ImageFormat)
    (entity_path : String) (now : Nat) (frame : OutputVideoFrame) :
    Option ImageRawAny :=
  if frame.output_index ≠ stream_index then none
  else some (buildImageRawAny image_format entity_path now frame)

/-- Observable state of one reader thread: structured log lines emitted so
far, frames sent to the watch channel so far, and whether the loop has hit
`break` (send to a closed channel). -/
structure ReaderState where
  logs : List (LogSeverity × String)
  sent : List ImageRawAny
  stopped : Bool
deriving DecidableEq, Repr

def ReaderState.initial : ReaderState := ⟨[], [], false⟩

/-- One iteration of the `for event in iter` loop of `spawn_ffmpeg_reader`.
`receiverOpen` models whether the watch receiver is still alive (send
succeeds) and `now` the wall clock read for an accepted frame. -/
def processEvent (camera_idx : Nat) (stream_index : Nat)
    (image_format : ImageFormat) (entity_path : String)
    (receiverOpen : Bool) (now : Nat)
    (st : ReaderState) (event : FfmpegEvent) : ReaderState :=
  if st.stopped then st
  else
    let tag := cameraTag camera_idx
    match event with
    | FfmpegEvent.ParsedVersion v =>
        { st with logs := st.logs ++ [(LogSeverity.info, tag ++ "Parsed FFmpeg version: " ++ v)] }
    | FfmpegEvent.ParsedConfiguration c =>
        { st with logs := st.logs ++ [(LogSeverity.info, tag ++ "Parsed FFmpeg configuration: " ++ c)] }
    | FfmpegEvent.ParsedStreamMapping mapping =>
        { st with logs := st.logs ++ [(LogSeverity.info, tag ++ "Parsed stream mapping: " ++ mapping)] }
    | FfmpegEvent.ParsedInput input =>
        { st with logs := st.logs ++ [(LogSeverity.info, tag ++ "Parsed input: " ++ input)] }
    | FfmpegEvent.ParsedOutput output =>
        { st with logs := st.logs ++ [(LogSeverity.info, tag ++ "Parsed output: " ++ output)] }
    | FfmpegEvent.ParsedInputStream stream =>
        { st with logs := st.logs ++ [(LogSeverity.debug, tag ++ "Parsed input stream: " ++ stream)] }
    | FfmpegEvent.ParsedOutputStream stream =>
        { st with logs := st.logs ++ [(LogSeverity.debug, tag ++ "Parsed output stream: " ++ stream)] }
    | FfmpegEvent.ParsedDuration duration =>
        { st with logs := st.logs ++ [(LogSeverity.debug, tag ++ "Parsed duration: " ++ duration)] }
    | FfmpegEvent.Log level msg =>
        let line :=
          if strContains msg dtsPattern then tag ++ "FFmpeg log [non-monotonic DTS]: " ++ msg
          else
            match level with
            | LogLevel.Fatal => tag ++ "FFmpeg log [FATAL]: " ++ msg
            | LogLevel.Unknown => tag ++ "FFmpeg log [UNKNOWN]: " ++ msg
            | _ => tag ++ "FFmpeg log [" ++ level.debugFormat ++ "]: " ++ msg
        { st with logs := st.logs ++ [(classifyFfmpegLog level msg, line)] }
    | FfmpegEvent.LogEOF =>
        { st with logs := st.logs ++ [(LogSeverity.info, tag ++ "FFmpeg log ended")] }
    | FfmpegEvent.Error err =>
        { st with logs := st.logs ++ [(LogSeverity.error, tag ++ "Error: " ++ err)] }
    | FfmpegEvent.Progress progress =>
        { st with logs := st.logs ++ [(LogSeverity.debug, tag ++ "Progress: " ++ progress)] }
    | FfmpegEvent.OutputFrame frame =>
        match handleOutputFrame stream_index image_format entity_path now frame with
        | none => st
        | some image =>
            if receiverOpen then { st with sent := st.sent ++ [image] }
            else
              { st with
                logs := st.logs ++ [(LogSeverity.error, tag ++ "Channel closed, stopping reader thread")],
                stopped := true }
    | FfmpegEvent.OutputChunk len =>
        { st with logs := st.logs ++ [(LogSeverity.trace, tag ++ "Received output chunk (" ++ toString len ++ " bytes)")] }
    | FfmpegEvent.Done =>
        { st with logs := st.logs ++ [(LogSeverity.info, tag ++ "FFmpeg processing done")] }

/-- The whole `for event in iter` loop. -/
def runReaderEvents (camera_idx : Nat) (stream_index : Nat)
    (image_format : ImageFormat) (entity_path : String)
    (receiverOpen : Bool) (now : Nat) (events : List FfmpegEvent) : ReaderState :=
  events.foldl (processEvent camera_idx stream_index image_format entity_path receiverOpen now)
    ReaderState.initial

/-- Result of `FfmpegCommand::spawn()`: either a child whose event iterator
yields `events`, or the `Err` that the source's `.expect(...)` turns into a
panic. -/
inductive LaunchResult where
  | ok (events : List FfmpegEvent)
  | failed
deriving DecidableEq, Repr

/-- How the blocking task of one source ends: a panic raised by
`.expect(&format!("Failed to spawn ffmpeg (camera {camera_idx})"))`, or normal
completion with the loop's final observable state. -/
inductive ReaderOutcome where
  | panicked (msg : String)
  | finished (final : ReaderState)
deriving DecidableEq, Repr

/-- The closure passed to `task::spawn_blocking` in `spawn_ffmpeg_reader`. -/
def runReader (camera_idx : Nat) (stream_index : Nat)
    (image_format : ImageFormat) (entity_path : String)
    (receiverOpen : Bool) (now : Nat) (launch : LaunchResult) : ReaderOutcome :=
  match launch with
  | LaunchResult.failed =>
      ReaderOutcome.panicked ("Failed to spawn ffmpeg (camera " ++ toString camera_idx ++ ")")
  | LaunchResult.ok events =>
      ReaderOutcome.finished
        (runReaderEvents camera_idx stream_index image_format entity_path receiverOpen now events)

/-- Structured log lines a reader outcome emitted through the `log` crate: a
panicked task emitted none (the `.expect` message goes through the panic
handler, not the logger). -/
def ReaderOutcome.emittedLogs : ReaderOutcome → List (LogSeverity × String)
  | ReaderOutcome.panicked _ => []
  | ReaderOutcome.finished st => st.logs

/-- Frames a reader outcome delivered to its watch channel. -/
def ReaderOutcome.sentFrames : ReaderOutcome → List ImageRawAny
  | ReaderOutcome.panicked _ => []
  | ReaderOutcome.finished st => st.sent

/-- Everything `main` hands one spawned source task: its index, selector,
format, entity path, liveness of its receiver, its clock, and its subprocess
launch result. One task per source; no state is shared between tasks. -/
structure SourceRun where
  camera_idx : Nat
  stream_index : Nat
  image_format : ImageFormat
  entity_path : String
  receiverOpen : Bool
  now : Nat
  launch : LaunchResult
deriving DecidableEq, Repr

def runSource (s : SourceRun) : ReaderOutcome :=
  runReader s.camera_idx s.stream_index s.image_format s.entity_path s.receiverOpen s.now s.launch

/-- All source tasks spawned by `main`'s `for idx in 0..config.ip.len()`
loop: each task's outcome is a function of its own `SourceRun` alone. -/
def runAllSources (sources : List SourceRun) : List ReaderOutcome :=
  sources.map runSource

/-! ## Camera configuration (`load_camera_config`, lines 229-250) -/

structure CameraConfig where
  ip : List String
  port : List Nat
  uri_suffix : List String
  username : List String
  password : List String
  stream_index : List Nat
deriving DecidableEq, Repr

/-- The `config_fields` array: each field name with the length of its parsed
comma-separated list. -/
def configFields (usernames passwords ips : List String) (ports : List Nat)
    (uri_suffixes : List String) (stream_indices : List Nat) : List (String × Nat) :=
  [("CAMERA_USERNAME", usernames.length),
   ("CAMERA_PASSWORD", passwords.length),
   ("CAMERA_IP", ips.length),
   ("CAMERA_PORT", ports.length),
   ("CAMERA_URI_SUFFIX", uri_suffixes.length),
   ("STREAM_INDEX", stream_indices.length)]

/-- `config_fields.iter().map(|(_, l)| *l).max().unwrap_or(1)`. -/
def expectedLen (fields : List (String × Nat)) : Nat :=
  ((fields.map (fun p => p.2)).max?).getD 1

/-- The `details` string: `"{name}: {len}"` entries joined with `", "`. -/
def fieldDetails (fields : List (String × Nat)) : String :=
  joinComma (fields.map (fun p => p.1 ++ ": " ++ toString p.2))

/-- The `anyhow!` message of the length-mismatch error. -/
def mismatchMessage (fields : List (String × Nat)) (expected : Nat) : String :=
  "All camera config fields must have the same number of comma-separated values.\nField lengths: "
    ++ fieldDetails fields ++ "\nExpected: " ++ toString expected

/-- Lines 229-250 of `load_camera_config`: after the six lists have been
parsed, fail unless every list's length equals the maximum length, else
return the `CameraConfig`. -/
def validateCameraConfig (usernames passwords ips : List String) (ports : List Nat)
    (uri_suffixes : List String) (stream_indices : List Nat) :
    Except String CameraConfig :=
  let fields := configFields usernames passwords ips ports uri_suffixes stream_indices
  let expected := expectedLen fields
  if !(fields.all (fun p => p.2 = expected)) then
    Except.error (mismatchMessage fields expected)
  else
    Except.ok ⟨ips, ports, uri_suffixes, usernames, passwords, stream_indices⟩

/-! ## Latest-value channel

Modelled from the spec: the tokio `watch` channel used between each reader
and the merge stage lives outside this repository. §4.4: `send(frame)` always
succeeds and unconditionally replaces any previously unread value (never
blocks, never queues); an observation yields the currently held value when it
has not yet been seen by this observer. The slot value starts as `none`
(`watch::channel(None)`); versions count sends, `seenVersion` what the sole
observer has consumed. -/

structure WatchState (F : Type) where
  value : Option F
  version : Nat
  seenVersion : Nat
deriving DecidableEq, Repr

/-- `watch::channel(None)`. -/
def watchChannel (F : Type) : WatchState F := ⟨none, 0, 0⟩

/-- Modelled from the spec: `send` overwrites the slot unconditionally and
never fails, blocks or queues. -/
def watchSend {F : Type} (st : WatchState F) (v : F) : WatchState F :=
  { st with value := some v, version := st.version + 1 }

/-- Modelled from the spec: an observation yields the current value when
there is an unseen update, and marks it seen. -/
def watchObserve {F : Type} (st : WatchState F) : Option F × WatchState F :=
  if st.seenVersion < st.version then (st.value, { st with seenVersion := st.version })
  else (none, st)

/-! ## Merge stage

Modelled from the spec: `SelectAll` over one `WatchStream` per source lives
outside this repository. §4.5: the merge stage is woken when any slot
changes, passes each observed frame through once, and its sequence terminates
exactly when every source's stream has finished; a `WatchStream` finishes
when its slot's producer side is closed and no unread value remains. -/

structure SlotStream (F : Type) where
  unread : Option F
  closed : Bool
deriving DecidableEq, Repr

inductive MergePoll (F : Type) where
  | ready (v : F) (rest : List (SlotStream F))
  | pending
  | done
deriving DecidableEq, Repr

/-- Modelled from the spec: one poll of the merged stream. The first slot
holding an unread frame yields it; with no unread frame anywhere the merged
stream is done when every slot is closed and pending otherwise. -/
def pollMerge {F : Type} : List (SlotStream F) → MergePoll F
  | [] => MergePoll.done
  | s :: rest =>
    match s.unread with
    | some v => MergePoll.ready v ({ s with unread := none } :: rest)
    | none =>
      match pollMerge rest with
      | MergePoll.ready v rest2 => MergePoll.ready v (s :: rest2)
      | MergePoll.pending => MergePoll.pending
      | MergePoll.done => if s.closed then MergePoll.done else MergePoll.pending

/-- Frames still unread across all slots. -/
def unreadCount {F : Type} (ss : List (SlotStream F)) : Nat :=
  (ss.filterMap (fun s => s.unread)).length

/-- Zero or more `ready` polls of the merged stream: from slots `ss` the
merge emits the frames `vs` in order and leaves slots `ss2`. -/
inductive MergeSteps {F : Type} : List (SlotStream F) → List F → List (SlotStream F) → Prop where
  | refl (ss : List (SlotStream F)) : MergeSteps ss [] ss
  | step {ss ss2 ss3 : List (SlotStream F)} {v : F} {vs : List F} :
      pollMerge ss = MergePoll.ready v ss2 → MergeSteps ss2 vs ss3 →
      MergeSteps ss (v :: vs) ss3

/-! ## Publish loop (`main`, lines 320-330) -/

/-- `select_all.filter_map(...).for_each(publish)`: drains the merged
sequence in order, skips `None` placeholders, attempts delivery of every
frame, records `"Failed to publish frame: {e}"` for a failed delivery, and
continues with the next frame either way. Returns each attempted frame with
the error line it produced, if any. -/
def publishLoop (publish : ImageRawAny → Except String Unit) :
    List (Option ImageRawAny) → List (ImageRawAny × Option String)
  | [] => []
  | none :: rest => publishLoop publish rest
  | some image :: rest =>
      (match publish image with
        | Except.ok _ => (image, none)
        | Except.error e => (image, some ("Failed to publish frame: " ++ e)))
        :: publishLoop publish rest

end RtspDriver

open RtspDriver

/-! ## Theorems -/

/-- C10: target pixel format resolution is total: `from_str` maps `"YUV420"`
case-insensitively to `Yuv420`, every other string to `Rgb888`, and a missing
`IMAGE_FORMAT` configuration value yields `Rgb888`. -/
theorem c10_image_format_resolution_total :
    (∀ s : String, toAsciiUppercase s = "YUV420" →
        ImageFormat.from_str s = ImageFormat.Yuv420) ∧
    (∀ s : String, toAsciiUppercase s ≠ "YUV420" →
        ImageFormat.from_str s = ImageFormat.Rgb888) ∧
    resolveImageFormat none = ImageFormat.Rgb888 ∧
    (∀ s : String, resolveImageFormat (some s) = ImageFormat.from_str s) := by
  refine ⟨?_, ?_, rfl, fun s => rfl⟩
  · intro s h
    simp [ImageFormat.from_str, h]
  · intro s h
    simp [ImageFormat.from_str, h]

/-- Witness for C10 at concrete inputs: `"yuv420"` resolves to `Yuv420`,
`"rgb"` resolves to `Rgb888`. -/
theorem c10_image_format_resolution_total_witness :
    ImageFormat.from_str "yuv420" = ImageFormat.Yuv420 ∧
    ImageFormat.from_str "rgb" = ImageFormat.Rgb888 :=
  ⟨c10_image_format_resolution_total.1 "yuv420" (by decide),
   c10_image_format_resolution_total.2.1 "rgb" (by decide)⟩

/-- C4: a subprocess log event whose message contains
`"non monotonically increasing dts"` is classified as a warning regardless of
its reported severity, and its loop iteration emits exactly that one
warning-level line; a log event without the pattern is routed by the fixed
mapping of its reported severity (`Error`/`Fatal` to error, `Warning`/
`Unknown` to warning, `Info` to info). -/
theorem c4_dts_log_downgraded_to_warning :
    (∀ (level : LogLevel) (msg : String), strContains msg dtsPattern = true →
        classifyFfmpegLog level msg = LogSeverity.warn) ∧
    (∀ (level : LogLevel) (msg : String), strContains msg dtsPattern = false →
        classifyFfmpegLog level msg = routeLogLevel level) ∧
    (∀ (idx si : Nat) (fmt : ImageFormat) (ep : String) (ro : Bool) (now : Nat)
        (st : ReaderState) (level : LogLevel) (msg : String), st.stopped = false →
      ∃ line : String,
        processEvent idx si fmt ep ro now st (FfmpegEvent.Log level msg) =
          { st with logs := st.logs ++ [(classifyFfmpegLog level msg, line)] }) := by
  refine ⟨?_, ?_, ?_⟩
  · intro level msg h
    simp [classifyFfmpegLog, h]
  · intro level msg h
    cases level <;> simp [classifyFfmpegLog, routeLogLevel, h]
  · intro idx si fmt ep ro now st level msg hst
    refine ⟨if strContains msg dtsPattern then
        cameraTag idx ++ "FFmpeg log [non-monotonic DTS]: " ++ msg
      else
        match level with
        | LogLevel.Fatal => cameraTag idx ++ "FFmpeg log [FATAL]: " ++ msg
        | LogLevel.Unknown => cameraTag idx ++ "FFmpeg log [UNKNOWN]: " ++ msg
        | _ => cameraTag idx ++ "FFmpeg log [" ++ level.debugFormat ++ "]: " ++ msg, ?_⟩
    simp [processEvent, hst]

/-- Witness for C4: an error-tagged dts line is downgraded to warning, a
fatal-tagged dts line as well, and an ordinary error line stays an error. -/
theorem c4_dts_log_downgraded_to_warning_witness :
    classifyFfmpegLog LogLevel.Error
      "Application provided invalid, non monotonically increasing dts to muxer" =
      LogSeverity.warn ∧
    classifyFfmpegLog LogLevel.Fatal
      "non monotonically increasing dts in output stream 0:0" = LogSeverity.warn ∧
    classifyFfmpegLog LogLevel.Error "Connection refused" = LogSeverity.error :=
  ⟨c4_dts_log_downgraded_to_warning.1 LogLevel.Error
      "Application provided invalid, non monotonically increasing dts to muxer" (by decide),
   c4_dts_log_downgraded_to_warning.1 LogLevel.Fatal
      "non monotonically increasing dts in output stream 0:0" (by decide),
   c4_dts_log_downgraded_to_warning.2.1 LogLevel.Error "Connection refused" (by decide)⟩

/-- C6: an output-frame event whose output index differs from the configured
stream index is dropped — no frame is constructed, the reader state is left
entirely unchanged (nothing is logged or sent) — while an event whose index
matches is converted and appended to the sent frames. -/
theorem c6_stream_index_filter :
    (∀ (si : Nat) (fmt : ImageFormat) (ep : String) (now : Nat) (f : OutputVideoFrame),
        f.output_index ≠ si → handleOutputFrame si fmt ep now f = none) ∧
    (∀ (si : Nat) (fmt : ImageFormat) (ep : String) (now : Nat) (f : OutputVideoFrame),
        f.output_index = si →
        handleOutputFrame si fmt ep now f = some (buildImageRawAny fmt ep now f)) ∧
    (∀ (idx si : Nat) (fmt : ImageFormat) (ep : String) (ro : Bool) (now : Nat)
        (st : ReaderState) (f : OutputVideoFrame), f.output_index ≠ si →
        processEvent idx si fmt ep ro now st (FfmpegEvent.OutputFrame f) = st) ∧
    (∀ (idx si : Nat) (fmt : ImageFormat) (ep : String) (now : Nat)
        (st : ReaderState) (f : OutputVideoFrame), st.stopped = false →
        f.output_index = si →
        processEvent idx si fmt ep true now st (FfmpegEvent.OutputFrame f) =
          { st with sent := st.sent ++ [buildImageRawAny fmt ep now f] }) := by
  refine ⟨?_, ?_, ?_, ?_⟩
  · intro si fmt ep now f h
    simp [handleOutputFrame, h]
  · intro si fmt ep now f h
    simp [handleOutputFrame, h]
  · intro idx si fmt ep ro now st f h
    by_cases hst : st.stopped = true
    · simp [processEvent, hst]
    · simp only [Bool.not_eq_true] at hst
      simp [processEvent, hst, handleOutputFrame, h]
  · intro idx si fmt ep now st f hst h
    simp [processEvent, hst, handleOutputFrame, h]

/-- Witness for C6: with selector 1, a frame on output index 0 is dropped and
a frame on output index 1 is forwarded. -/
theorem c6_stream_index_filter_witness :
    handleOutputFrame 1 ImageFormat.Rgb888 "/camera/h/p" 5
      ⟨2, 2, "rgb24", 0, [0, 0, 0]⟩ = none ∧
    handleOutputFrame 1 ImageFormat.Rgb888 "/camera/h/p" 5
      ⟨2, 2, "rgb24", 1, [0, 0, 0]⟩ =
      some (buildImageRawAny ImageFormat.Rgb888 "/camera/h/p" 5
        ⟨2, 2, "rgb24", 1, [0, 0, 0]⟩) :=
  ⟨c6_stream_index_filter.1 1 ImageFormat.Rgb888 "/camera/h/p" 5
      ⟨2, 2, "rgb24", 0, [0, 0, 0]⟩ (by decide),
   c6_stream_index_filter.2.1 1 ImageFormat.Rgb888 "/camera/h/p" 5
      ⟨2, 2, "rgb24", 1, [0, 0, 0]⟩ (by decide)⟩

/-- C1 counterexample: a 2×2 RGB888 output-frame event carrying only 5 raw
bytes (≠ 12 = 2·2·3) is accepted by the classifier (its output index matches
the selector), yet frame construction succeeds — the frame is built with the
5 bytes verbatim and sent to the slot — rather than failing with
`MalformedFrame` and dropping the frame. -/
theorem c1_counterexample_short_frame_accepted :
    handleOutputFrame 0 ImageFormat.Rgb888 "/camera/h/p" 7
      ⟨2, 2, "rgb24", 0, [1, 2, 3, 4, 5]⟩ =
      some (buildImageRawAny ImageFormat.Rgb888 "/camera/h/p" 7
        ⟨2, 2, "rgb24", 0, [1, 2, 3, 4, 5]⟩) ∧
    ([1, 2, 3, 4, 5] : List Nat).length ≠ specExpectedByteLen ImageFormat.Rgb888 2 2 ∧
    (runReaderEvents 0 0 ImageFormat.Rgb888 "/camera/h/p" true 7
      [FfmpegEvent.OutputFrame ⟨2, 2, "rgb24", 0, [1, 2, 3, 4, 5]⟩]).sent =
      [buildImageRawAny ImageFormat.Rgb888 "/camera/h/p" 7
        ⟨2, 2, "rgb24", 0, [1, 2, 3, 4, 5]⟩] :=
  ⟨rfl, by decide, rfl⟩

/-- C1 (amended): frame construction performs no byte-length validation and
has no `MalformedFrame` failure path: every output-frame event accepted by
the classifier is unconditionally converted into a frame that copies the
event's width, height and raw pixel bytes verbatim, whether or not the byte
length equals width × height × bytes-per-pixel for the stated format. -/
theorem c1_frame_construction_never_validates_length :
    ∀ (si : Nat) (fmt : ImageFormat) (ep : String) (now : Nat) (f : OutputVideoFrame),
      f.output_index = si →
      handleOutputFrame si fmt ep now f = some (buildImageRawAny fmt ep now f) ∧
      (buildImageRawAny fmt ep now f).rawData = some f.data ∧
      (buildImageRawAny fmt ep now f).rawWidth = some f.width ∧
      (buildImageRawAny fmt ep now f).rawHeight = some f.height := by
  intro si fmt ep now f h
  refine ⟨by simp [handleOutputFrame, h], ?_, ?_, ?_⟩ <;>
    cases fmt <;>
      simp [buildImageRawAny, ImageRawAny.rawData, ImageRawAny.rawWidth, ImageRawAny.rawHeight]

/-- Witness for C1 (amended) at the 5-byte 2×2 RGB888 event: accepted,
constructed, bytes passed through untouched. -/
theorem c1_frame_construction_never_validates_length_witness :
    handleOutputFrame 3 ImageFormat.Rgb888 "/camera/h/p" 7
      ⟨2, 2, "rgb24", 3, [1, 2, 3, 4, 5]⟩ =
      some (buildImageRawAny ImageFormat.Rgb888 "/camera/h/p" 7
        ⟨2, 2, "rgb24", 3, [1, 2, 3, 4, 5]⟩) ∧
    (buildImageRawAny ImageFormat.Rgb888 "/camera/h/p" 7
      ⟨2, 2, "rgb24", 3, [1, 2, 3, 4, 5]⟩).rawData = some [1, 2, 3, 4, 5] :=
  ⟨(c1_frame_construction_never_validates_length 3 ImageFormat.Rgb888 "/camera/h/p" 7
      ⟨2, 2, "rgb24", 3, [1, 2, 3, 4, 5]⟩ (by decide)).1,
   (c1_frame_construction_never_validates_length 3 ImageFormat.Rgb888 "/camera/h/p" 7
      ⟨2, 2, "rgb24", 3, [1, 2, 3, 4, 5]⟩ (by decide)).2.1⟩

/-- C3 counterexample: when the subprocess for camera 2 cannot be started,
the blocking task panics through `.expect` with the message
`"Failed to spawn ffmpeg (camera 2)"`; no error-level line (indeed no line at
all) is emitted through the structured logger, refuting "it is logged at
error level". -/
theorem c3_counterexample_launch_failure_not_logged :
    runSource ⟨2, 0, ImageFormat.Rgb888, "/camera/h/p", true, 0, LaunchResult.failed⟩ =
      ReaderOutcome.panicked "Failed to spawn ffmpeg (camera 2)" ∧
    (runSource ⟨2, 0, ImageFormat.Rgb888, "/camera/h/p", true, 0,
        LaunchResult.failed⟩).emittedLogs.filter
      (fun e => e.1 = LogSeverity.error) = [] :=
  ⟨by decide, rfl⟩

/-- C3 (amended): a launch failure is fatal for that source only, but is not
routed through the error-level logger: the source's blocking task panics with
the `.expect` message naming the camera (handled by the panic hook, outside
the structured log stream), emits no structured log line and sends no frame;
and every source task's outcome is a function of its own `SourceRun` alone,
so replacing one source's run (e.g. by a failing launch) leaves every other
source's outcome unchanged. -/
theorem c3_launch_failure_source_scoped :
    (∀ s : SourceRun, s.launch = LaunchResult.failed →
      runSource s = ReaderOutcome.panicked
          ("Failed to spawn ffmpeg (camera " ++ toString s.camera_idx ++ ")") ∧
      (runSource s).emittedLogs = [] ∧
      (runSource s).sentFrames = []) ∧
    (∀ (sources : List SourceRun) (i j : Nat) (s2 : SourceRun), j ≠ i →
      (runAllSources (sources.set i s2))[j]? = (runAllSources sources)[j]?) := by
  constructor
  · intro s h
    refine ⟨?_, ?_, ?_⟩ <;>
      simp [runSource, runReader, h, ReaderOutcome.emittedLogs, ReaderOutcome.sentFrames]
  · intro sources i j s2 hne
    simp [runAllSources, List.getElem?_set_ne (Ne.symm hne)]

/-- Witness for C3 (amended): a failing camera-1 run panics with its message
and logs/sends nothing, and replacing source 1 of a two-source list with it
leaves source 0's outcome untouched. -/
theorem c3_launch_failure_source_scoped_witness :
    (runSource ⟨1, 0, ImageFormat.Rgb888, "/camera/h/p", true, 0, LaunchResult.failed⟩ =
      ReaderOutcome.panicked "Failed to spawn ffmpeg (camera 1)" ∧
      (runSource ⟨1, 0, ImageFormat.Rgb888, "/camera/h/p", true, 0,
          LaunchResult.failed⟩).emittedLogs = [] ∧
      (runSource ⟨1, 0, ImageFormat.Rgb888, "/camera/h/p", true, 0,
          LaunchResult.failed⟩).sentFrames = []) ∧
    (runAllSources ([⟨0, 0, ImageFormat.Rgb888, "/camera/a/s", true, 0, LaunchResult.ok []⟩,
        ⟨1, 0, ImageFormat.Rgb888, "/camera/b/s", true, 0, LaunchResult.ok []⟩].set 1
        ⟨1, 0, ImageFormat.Rgb888, "/camera/b/s", true, 0, LaunchResult.failed⟩))[0]? =
      (runAllSources [⟨0, 0, ImageFormat.Rgb888, "/camera/a/s", true, 0, LaunchResult.ok []⟩,
        ⟨1, 0, ImageFormat.Rgb888, "/camera/b/s", true, 0, LaunchResult.ok []⟩])[0]? :=
  ⟨c3_launch_failure_source_scoped.1
      ⟨1, 0, ImageFormat.Rgb888, "/camera/h/p", true, 0, LaunchResult.failed⟩ (by decide),
   c3_launch_failure_source_scoped.2
      [⟨0, 0, ImageFormat.Rgb888, "/camera/a/s", true, 0, LaunchResult.ok []⟩,
       ⟨1, 0, ImageFormat.Rgb888, "/camera/b/s", true, 0, LaunchResult.ok []⟩] 1 0
      ⟨1, 0, ImageFormat.Rgb888, "/camera/b/s", true, 0, LaunchResult.failed⟩ (by decide)⟩

/-- C5: latest-value channel laws. From any channel state whose observer is
not ahead of the writer: `send` is total and unconditionally overwrites the
slot (never blocks or queues); sending v1, v2, v3 before any observation
yields exactly v3 to the next observation; and sending v1, observing, then
sending v2 and observing yields v1 then v2 with no loss. -/
theorem c5_watch_channel_laws :
    ∀ (F : Type) (st : WatchState F) (v1 v2 v3 : F),
      st.seenVersion ≤ st.version →
      (∀ v : F, (watchSend st v).value = some v ∧
        (watchSend st v).version = st.version + 1) ∧
      (watchObserve (watchSend (watchSend (watchSend st v1) v2) v3)).1 = some v3 ∧
      ((watchObserve (watchSend st v1)).1 = some v1 ∧
        (watchObserve (watchSend ((watchObserve (watchSend st v1)).2) v2)).1 = some v2) := by
  intro F st v1 v2 v3 h
  refine ⟨fun v => ⟨rfl, rfl⟩, ?_, ?_, ?_⟩
  · simp only [watchSend, watchObserve]
    have : st.seenVersion < st.version + 1 + 1 + 1 := by omega
    simp [this]
  · simp only [watchSend, watchObserve]
    have : st.seenVersion < st.version + 1 := by omega
    simp [this]
  · simp only [watchSend, watchObserve]
    have h1 : st.seenVersion < st.version + 1 := by omega
    have h2 : st.version + 1 < st.version + 1 + 1 := by omega
    simp [h1, h2]

/-- Witness for C5 at a fresh channel over `Nat` with values 1, 2, 3. -/
theorem c5_watch_channel_laws_witness :
    ((∀ v : Nat, (watchSend (watchChannel Nat) v).value = some v ∧
        (watchSend (watchChannel Nat) v).version = (watchChannel Nat).version + 1) ∧
      (watchObserve (watchSend (watchSend (watchSend (watchChannel Nat) 1) 2) 3)).1 = some 3 ∧
      ((watchObserve (watchSend (watchChannel Nat) 1)).1 = some 1 ∧
        (watchObserve (watchSend ((watchObserve (watchSend (watchChannel Nat) 1)).2) 2)).1 =
          some 2)) :=
  c5_watch_channel_laws Nat (watchChannel Nat) 1 2 3 (by decide)

/-- C8: the publish loop attempts delivery of every frame in the merged
sequence (the attempted frames are exactly the merged sequence with the empty
placeholders removed, in order), and a failed delivery produces the
`"Failed to publish frame: ..."` line while the loop continues with the rest
of the sequence. -/
theorem c8_sink_failure_does_not_stop_loop :
    (∀ (publish : ImageRawAny → Except String Unit) (merged : List (Option ImageRawAny)),
      (publishLoop publish merged).map (fun r => r.1) = merged.filterMap id) ∧
    (∀ (publish : ImageRawAny → Except String Unit) (image : ImageRawAny)
        (rest : List (Option ImageRawAny)) (e : String),
      publish image = Except.error e →
      publishLoop publish (some image :: rest) =
        (image, some ("Failed to publish frame: " ++ e)) :: publishLoop publish rest) := by
  constructor
  · intro publish merged
    induction merged with
    | nil => rfl
    | cons o rest ih =>
      cases o with
      | none => simpa [publishLoop] using ih
      | some image =>
        cases h : publish image <;> simp [publishLoop, h, ih]
  · intro publish image rest e h
    simp [publishLoop, h]

/-- Witness for C8: with a sink that always fails, both frames of a two-frame
merged sequence are attempted and the failing frame is followed by the next
one. -/
theorem c8_sink_failure_does_not_stop_loop_witness :
    (publishLoop (fun _ => Except.error "boom")
        [some ⟨none, none⟩, none, some ⟨none, none⟩]).map (fun r => r.1) =
      ([some ⟨none, none⟩, none, some ⟨none, none⟩].filterMap id :
        List ImageRawAny) ∧
    publishLoop (fun _ => Except.error "boom") [some ⟨none, none⟩] =
      ((⟨none, none⟩ : ImageRawAny), some "Failed to publish frame: boom") ::
        publishLoop (fun _ => Except.error "boom") [] :=
  ⟨c8_sink_failure_does_not_stop_loop.1 (fun _ => Except.error "boom")
      [some ⟨none, none⟩, none, some ⟨none, none⟩],
   c8_sink_failure_does_not_stop_loop.2 (fun _ => Except.error "boom")
      ⟨none, none⟩ [] "boom" rfl⟩

/-- C9 counterexample: `Url::parse("rtsp://cam:pw@10.0.0.1/stream")` yields
username `"cam"`, password `"pw"`, host `"10.0.0.1"` and path `"/stream"`;
the returned provenance path `"/camera/10.0.0.1/stream"` does contain the
username `"cam"` (inside the fixed `"/camera/"` prefix), refuting "in no case
does the returned provenance path contain the username". -/
theorem c9_counterexample_username_occurs :
    format_entity_path (some ⟨"rtsp", "cam", some "pw", some "10.0.0.1", "/stream"⟩) =
      "/camera/10.0.0.1/stream" ∧
    strContains
      (format_entity_path (some ⟨"rtsp", "cam", some "pw", some "10.0.0.1", "/stream"⟩))
      "cam" = true := by
  constructor <;> decide

/-- C9 (amended): `format_entity_path` is total: a parsed URL yields
`"/camera/" ++ host ++ "/" ++ path-with-leading-slashes-removed` with
`"unknown"` substituted for a missing host, and a failed parse yields
`"/camera/unknown"`; the result is determined by the host and path components
alone, so the username and password never influence it (their text can occur
in the result only by coinciding with text of the fixed prefix, the host or
the path). -/
theorem c9_format_entity_path_total :
    ∀ (u : UrlParts),
      format_entity_path none = "/camera/unknown" ∧
      format_entity_path (some u) =
        "/camera/" ++ u.host.getD "unknown" ++ "/" ++
          (⟨trimStartSlashes u.path.data⟩ : String) ∧
      (∀ u2 : UrlParts, u2.host = u.host → u2.path = u.path →
        format_entity_path (some u2) = format_entity_path (some u)) := by
  intro u
  refine ⟨rfl, rfl, ?_⟩
  intro u2 hh hp
  simp [format_entity_path, hh, hp]

/-- Witness for C9 (amended): two parses sharing host and path but with
different credentials produce the same provenance path. -/
theorem c9_format_entity_path_total_witness :
    format_entity_path
        (some ⟨"rtsp", "alice", some "secret", some "10.0.0.1", "/stream"⟩) =
      format_entity_path (some ⟨"rtsp", "", none, some "10.0.0.1", "/stream"⟩) :=
  (c9_format_entity_path_total
      ⟨"rtsp", "", none, some "10.0.0.1", "/stream"⟩).2.2
    ⟨"rtsp", "alice", some "secret", some "10.0.0.1", "/stream"⟩ rfl rfl

theorem leadsList_refl : ∀ p : List Char, leadsList p p = true
  | [] => rfl
  | a :: as => by simp [leadsList, leadsList_refl as]

theorem leadsList_append : ∀ (p s t : List Char), leadsList p s = true →
    leadsList p (s ++ t) = true
  | [], _, _, _ => rfl
  | a :: as, [], t, h => by simp [leadsList] at h
  | a :: as, b :: bs, t, h => by
      simp only [leadsList, Bool.and_eq_true, decide_eq_true_eq] at h
      simp only [List.cons_append, leadsList, Bool.and_eq_true, decide_eq_true_eq]
      exact ⟨h.1, leadsList_append as bs t h.2⟩

theorem leadsList_nil_eq : ∀ p : List Char, leadsList p [] = true → p = []
  | [], _ => rfl
  | a :: as, h => by simp [leadsList] at h

theorem occursList_of_leads : ∀ (p s : List Char), leadsList p s = true →
    occursList p s = true
  | _, [], h => h
  | p, c :: r, h => by simp [occursList, h]

theorem occursList_refl (p : List Char) : occursList p p = true :=
  occursList_of_leads p p (leadsList_refl p)

theorem occursList_append_left : ∀ (t p s : List Char), occursList p s = true →
    occursList p (t ++ s) = true
  | [], _, _, h => h
  | c :: t2, p, s, h => by
      simp only [List.cons_append, occursList, Bool.or_eq_true]
      exact Or.inr (occursList_append_left t2 p s h)

theorem occursList_append_right : ∀ (p s t : List Char), occursList p s = true →
    occursList p (s ++ t) = true
  | p, [], t, h => by
      have hp : p = [] := leadsList_nil_eq p h
      subst hp
      exact occursList_of_leads [] t rfl
  | p, c :: r, t, h => by
      simp only [occursList, Bool.or_eq_true] at h
      simp only [List.cons_append, occursList, Bool.or_eq_true]
      rcases h with hl | hr
      · exact Or.inl (leadsList_append p (c :: r) t hl)
      · exact Or.inr (occursList_append_right p r t hr)

theorem strContains_refl (s : String) : strContains s s = true :=
  occursList_refl s.data

theorem strContains_append_left (t s pat : String) (h : strContains s pat = true) :
    strContains (t ++ s) pat = true :=
  occursList_append_left t.data pat.data s.data h

theorem strContains_append_right (s t pat : String) (h : strContains s pat = true) :
    strContains (s ++ t) pat = true :=
  occursList_append_right pat.data s.data t.data h

theorem strContains_joinComma : ∀ (l : List String) (x : String), x ∈ l →
    strContains (joinComma l) x = true
  | [], x, h => absurd h (List.not_mem_nil x)
  | [s], x, h => by
      have hx : x = s := by simpa using h
      subst hx
      exact strContains_refl x
  | s :: r :: rs, x, h => by
      rcases List.mem_cons.mp h with h1 | h2
      · subst h1
        exact strContains_append_right _ _ _
          (strContains_append_right _ _ _ (strContains_refl x))
      · exact strContains_append_left _ _ _ (strContains_joinComma (r :: rs) x h2)

/-- C2: if the six comma-separated per-source configuration lists do not all
have the same number of elements, loading fails with an error whose message
names every field (in particular each mismatched one) together with its
length, and the expected length; if all lengths are equal it succeeds and
returns the parsed per-source lists. (`main` propagates the error with `?`,
aborting the whole process.) -/
theorem c2_config_equal_lengths_validated :
    (∀ (usernames passwords ips : List String) (ports : List Nat)
        (uri_suffixes : List String) (stream_indices : List Nat),
      usernames.length = passwords.length ∧ passwords.length = ips.length ∧
        ips.length = ports.length ∧ ports.length = uri_suffixes.length ∧
        uri_suffixes.length = stream_indices.length →
      validateCameraConfig usernames passwords ips ports uri_suffixes stream_indices =
        Except.ok ⟨ips, ports, uri_suffixes, usernames, passwords, stream_indices⟩) ∧
    (∀ (usernames passwords ips : List String) (ports : List Nat)
        (uri_suffixes : List String) (stream_indices : List Nat),
      ¬(usernames.length = passwords.length ∧ passwords.length = ips.length ∧
        ips.length = ports.length ∧ ports.length = uri_suffixes.length ∧
        uri_suffixes.length = stream_indices.length) →
      validateCameraConfig usernames passwords ips ports uri_suffixes stream_indices =
        Except.error (mismatchMessage
          (configFields usernames passwords ips ports uri_suffixes stream_indices)
          (expectedLen (configFields usernames passwords ips ports uri_suffixes stream_indices))) ∧
      (∀ q ∈ configFields usernames passwords ips ports uri_suffixes stream_indices,
        strContains (mismatchMessage
            (configFields usernames passwords ips ports uri_suffixes stream_indices)
            (expectedLen (configFields usernames passwords ips ports uri_suffixes stream_indices)))
          (q.1 ++ ": " ++ toString q.2) = true) ∧
      strContains (mismatchMessage
          (configFields usernames passwords ips ports uri_suffixes stream_indices)
          (expectedLen (configFields usernames passwords ips ports uri_suffixes stream_indices)))
        ("Expected: " ++ toString
          (expectedLen (configFields usernames passwords ips ports uri_suffixes stream_indices)))
        = true) := by
  constructor
  · rintro u p i po s st ⟨h1, h2, h3, h4, h5⟩
    have hall : (configFields u p i po s st).all
        (fun q => q.2 = expectedLen (configFields u p i po s st)) = true := by
      simp only [configFields, expectedLen, List.map, List.all_cons, List.all_nil,
        Bool.and_eq_true, decide_eq_true_eq, and_true]
      rw [← h5, ← h4, ← h3, ← h2, ← h1]
      simp [List.max?]
    simp [validateCameraConfig, hall]
  · intro u p i po s st hne
    have hall : (configFields u p i po s st).all
        (fun q => q.2 = expectedLen (configFields u p i po s st)) = false := by
      cases hb : (configFields u p i po s st).all
          (fun q => q.2 = expectedLen (configFields u p i po s st)) with
      | false => rfl
      | true =>
        exfalso
        apply hne
        simp only [configFields, List.all_cons, List.all_nil, Bool.and_eq_true,
          decide_eq_true_eq, and_true] at hb
        obtain ⟨e1, e2, e3, e4, e5, e6⟩ := hb
        exact ⟨e1.trans e2.symm, e2.trans e3.symm, e3.trans e4.symm,
          e4.trans e5.symm, e5.trans e6.symm⟩
    refine ⟨by simp [validateCameraConfig, hall], ?_, ?_⟩
    · intro q hq
      have hD : strContains
          (fieldDetails (configFields u p i po s st)) (q.1 ++ ": " ++ toString q.2) = true := by
        unfold fieldDetails
        apply strContains_joinComma
        simpa using List.mem_map_of_mem (fun r => r.1 ++ ": " ++ toString r.2) hq
      unfold mismatchMessage
      exact strContains_append_right _ _ _
        (strContains_append_right _ _ _ (strContains_append_left _ _ _ hD))
    · unfold mismatchMessage
      rw [show ("\nExpected: " : String) = "\n" ++ "Expected: " from by decide,
        String.append_assoc _ ("\n" ++ "Expected: "), String.append_assoc "\n"]
      exact strContains_append_left _ _ _ (strContains_append_left "\n" _ _
        (strContains_refl _))

/-- Witness for C2 at the spec's example (IP list of 2, PORT list of 1,
everything else 2): validation fails, the message names `CAMERA_PORT` with
its length 1 and the expected length 2; and an all-equal configuration of one
camera validates successfully. -/
theorem c2_config_equal_lengths_validated_witness :
    validateCameraConfig ["u1", "u2"] ["p1", "p2"] ["10.0.0.1", "10.0.0.2"] [554]
        ["sa", "sb"] [0, 1] =
      Except.error (mismatchMessage
        (configFields ["u1", "u2"] ["p1", "p2"] ["10.0.0.1", "10.0.0.2"] [554]
          ["sa", "sb"] [0, 1])
        (expectedLen (configFields ["u1", "u2"] ["p1", "p2"] ["10.0.0.1", "10.0.0.2"]
          [554] ["sa", "sb"] [0, 1]))) ∧
    strContains (mismatchMessage
        (configFields ["u1", "u2"] ["p1", "p2"] ["10.0.0.1", "10.0.0.2"] [554]
          ["sa", "sb"] [0, 1])
        (expectedLen (configFields ["u1", "u2"] ["p1", "p2"] ["10.0.0.1", "10.0.0.2"]
          [554] ["sa", "sb"] [0, 1])))
      ("CAMERA_PORT" ++ ": " ++ toString (1 : Nat)) = true ∧
    strContains (mismatchMessage
        (configFields ["u1", "u2"] ["p1", "p2"] ["10.0.0.1", "10.0.0.2"] [554]
          ["sa", "sb"] [0, 1])
        (expectedLen (configFields ["u1", "u2"] ["p1", "p2"] ["10.0.0.1", "10.0.0.2"]
          [554] ["sa", "sb"] [0, 1])))
      ("Expected: " ++ toString (expectedLen (configFields ["u1", "u2"] ["p1", "p2"]
        ["10.0.0.1", "10.0.0.2"] [554] ["sa", "sb"] [0, 1]))) = true ∧
    expectedLen (configFields ["u1", "u2"] ["p1", "p2"] ["10.0.0.1", "10.0.0.2"] [554]
      ["sa", "sb"] [0, 1]) = 2 ∧
    validateCameraConfig ["u"] ["p"] ["ip"] [554] ["s"] [7] =
      Except.ok ⟨["ip"], [554], ["s"], ["u"], ["p"], [7]⟩ := by
  have h := c2_config_equal_lengths_validated.2 ["u1", "u2"] ["p1", "p2"]
    ["10.0.0.1", "10.0.0.2"] [554] ["sa", "sb"] [0, 1] (by decide)
  have hok := c2_config_equal_lengths_validated.1 ["u"] ["p"] ["ip"] [554] ["s"] [7]
    (by decide)
  exact ⟨h.1, h.2.1 ("CAMERA_PORT", 1) (by decide), h.2.2, by decide, hok⟩

theorem pollMerge_ne_done_of_open {F : Type} :
    ∀ ss : List (SlotStream F), (∃ s ∈ ss, s.closed = false) →
      pollMerge ss ≠ MergePoll.done
  | [], h => by simp at h
  | s :: rest, h => by
    cases hu : s.unread with
    | some v => simp [pollMerge, hu]
    | none =>
      cases hp : pollMerge rest with
      | ready v rest2 => simp [pollMerge, hu, hp]
      | pending => simp [pollMerge, hu, hp]
      | done =>
        rcases h with ⟨t, ht, hto⟩
        rcases List.mem_cons.mp ht with rfl | htr
        · simp [pollMerge, hu, hp, hto]
        · exact absurd hp (pollMerge_ne_done_of_open rest ⟨t, htr, hto⟩)

theorem all_closed_of_pollMerge_done {F : Type} :
    ∀ ss : List (SlotStream F), pollMerge ss = MergePoll.done →
      ∀ s ∈ ss, s.closed = true
  | [], _, t, ht => absurd ht (List.not_mem_nil t)
  | s :: rest, h, t, ht => by
    cases hu : s.unread with
    | some v => simp [pollMerge, hu] at h
    | none =>
      cases hp : pollMerge rest with
      | ready v rest2 => simp [pollMerge, hu, hp] at h
      | pending => simp [pollMerge, hu, hp] at h
      | done =>
        by_cases hc : s.closed = true
        · rcases List.mem_cons.mp ht with rfl | htr
          · exact hc
          · exact all_closed_of_pollMerge_done rest hp t htr
        · have hcf : s.closed = false := by simpa using hc
          simp [pollMerge, hu, hp, hcf] at h

theorem pollMerge_ne_pending_of_closed {F : Type} :
    ∀ ss : List (SlotStream F), (∀ s ∈ ss, s.closed = true) →
      pollMerge ss ≠ MergePoll.pending
  | [], _ => by simp [pollMerge]
  | s :: rest, h => by
    have hs : s.closed = true := h s (List.mem_cons_self s rest)
    have hrest : ∀ t ∈ rest, t.closed = true := fun t ht => h t (List.mem_cons_of_mem s ht)
    cases hu : s.unread with
    | some v => simp [pollMerge, hu]
    | none =>
      cases hp : pollMerge rest with
      | ready v rest2 => simp [pollMerge, hu, hp]
      | pending => exact absurd hp (pollMerge_ne_pending_of_closed rest hrest)
      | done => simp [pollMerge, hu, hp, hs]

theorem pollMerge_ready_spec {F : Type} :
    ∀ (ss ss2 : List (SlotStream F)) (v : F), pollMerge ss = MergePoll.ready v ss2 →
      ss2.map (fun t => t.closed) = ss.map (fun t => t.closed) ∧
      unreadCount ss2 + 1 = unreadCount ss
  | [], ss2, v, h => by simp [pollMerge] at h
  | s :: rest, ss2, v, h => by
    cases hu : s.unread with
    | some w =>
      rw [show pollMerge (s :: rest) = MergePoll.ready w ({ s with unread := none } :: rest)
        from by simp [pollMerge, hu]] at h
      obtain ⟨rfl, rfl⟩ : w = v ∧ ({ s with unread := none } :: rest) = ss2 := by
        cases h; exact ⟨rfl, rfl⟩
      refine ⟨rfl, ?_⟩
      simp [unreadCount, List.filterMap_cons, hu]
    | none =>
      cases hp : pollMerge rest with
      | ready w rest2 =>
        rw [show pollMerge (s :: rest) = MergePoll.ready w (s :: rest2)
          from by simp [pollMerge, hu, hp]] at h
        obtain ⟨rfl, rfl⟩ : w = v ∧ (s :: rest2) = ss2 := by
          cases h; exact ⟨rfl, rfl⟩
        obtain ⟨hmap, hcount⟩ := pollMerge_ready_spec rest rest2 w hp
        refine ⟨by simp [hmap], ?_⟩
        simp only [unreadCount, List.filterMap_cons, hu] at *
        omega
      | pending => simp [pollMerge, hu, hp] at h
      | done =>
        by_cases hc : s.closed = true <;>
          simp [pollMerge, hu, hp, hc] at h

theorem mergeSteps_done_of_closed_fuel {F : Type} :
    ∀ (n : Nat) (ss : List (SlotStream F)), unreadCount ss ≤ n →
      (∀ s ∈ ss, s.closed = true) →
      ∃ vs ss2, MergeSteps ss vs ss2 ∧ pollMerge ss2 = MergePoll.done := by
  intro n
  induction n with
  | zero =>
    intro ss hle h
    cases hp : pollMerge ss with
    | done => exact ⟨[], ss, MergeSteps.refl ss, hp⟩
    | pending => exact absurd hp (pollMerge_ne_pending_of_closed ss h)
    | ready v ss2 =>
      obtain ⟨_, hcount⟩ := pollMerge_ready_spec ss ss2 v hp
      omega
  | succ n ih =>
    intro ss hle h
    cases hp : pollMerge ss with
    | done => exact ⟨[], ss, MergeSteps.refl ss, hp⟩
    | pending => exact absurd hp (pollMerge_ne_pending_of_closed ss h)
    | ready v ss2 =>
      obtain ⟨hmap, hcount⟩ := pollMerge_ready_spec ss ss2 v hp
      have h2 : ∀ t ∈ ss2, t.closed = true := by
        intro t ht
        have hmem : t.closed ∈ ss2.map (fun t => t.closed) := List.mem_map_of_mem _ ht
        rw [hmap] at hmem
        rcases List.mem_map.mp hmem with ⟨u, hu, he⟩
        rw [← he]
        exact h u hu
      obtain ⟨vs, ss3, hsteps, hdone⟩ := ih ss2 (by omega) h2
      exact ⟨v :: vs, ss3, MergeSteps.step hp hsteps, hdone⟩

/-- C7: the merged stream is exhausted exactly when every source's slot has
closed: (i) while at least one slot is open a poll never reports the merged
stream done; (ii) a done poll implies every slot is closed; (iii) once every
slot is closed, the merge emits the finitely many unread frames and then
reports done. -/
theorem c7_merge_exhausted_iff_all_closed :
    ∀ (F : Type) (ss : List (SlotStream F)),
      ((∃ s ∈ ss, s.closed = false) → pollMerge ss ≠ MergePoll.done) ∧
      (pollMerge ss = MergePoll.done → ∀ s ∈ ss, s.closed = true) ∧
      ((∀ s ∈ ss, s.closed = true) →
        ∃ vs ss2, MergeSteps ss vs ss2 ∧ pollMerge ss2 = MergePoll.done) :=
  fun _ ss =>
    ⟨pollMerge_ne_done_of_open ss, all_closed_of_pollMerge_done ss,
     fun h => mergeSteps_done_of_closed_fuel (unreadCount ss) ss (Nat.le_refl _) h⟩

/-- Witness for C7: a two-slot system with one open slot is not done even
though the other slot closed, and once both slots close the merge drains the
pending frame and terminates. -/
theorem c7_merge_exhausted_iff_all_closed_witness :
    pollMerge [(⟨none, true⟩ : SlotStream Nat), ⟨some 5, false⟩] ≠ MergePoll.done ∧
    (∃ vs ss2, MergeSteps [(⟨some 5, true⟩ : SlotStream Nat), ⟨none, true⟩] vs ss2 ∧
      pollMerge ss2 = MergePoll.done) :=
  ⟨(c7_merge_exhausted_iff_all_closed Nat [⟨none, true⟩, ⟨some 5, false⟩]).1
      ⟨⟨some 5, false⟩, by decide, rfl⟩,
   (c7_merge_exhausted_iff_all_closed Nat [⟨some 5, true⟩, ⟨none, true⟩]).2.2
      (by decide)⟩
